import Mathlib

/-!
Verification of the mobilecoin mint-client configuration logic
(`consensus/mint-client/src/config.rs`) and the defragmentation memo
builder (`transaction/builder/src/memo_builder/defragmentation_memo_builder.rs`),
shallowly embedded in Lean.

Keys, messages and signatures are modelled as natural numbers and byte
sequences (`List Nat`); Ed25519 signing is deterministic, so local signing
is modelled as an explicitly passed function from key and message to a
fallible signature.
-/

/-- Signing keys (public or private) are abstracted as naturals. -/
abbrev Key := Nat

/-- A message to be signed (the hash of an unsigned tx record), as bytes. -/
abbrev Msg := List Nat

/-- An Ed25519 signature, as its byte sequence; Rust `Ord` on signatures is
lexicographic byte order, matched by the `LinearOrder` on `List Nat`. -/
abbrev Sig := List Nat

/-- Consecutive-duplicate removal, the semantics of Rust `Vec::dedup`:
only adjacent equal elements are collapsed, keeping one of each run. -/
def dedupConsec {α : Type} [DecidableEq α] : List α → List α
  | [] => []
  | [a] => [a]
  | a :: b :: rest =>
    if a = b then dedupConsec (b :: rest) else a :: dedupConsec (b :: rest)

/-- The canonicalization applied by the mint client to its signature vector:
`signatures.sort(); signatures.dedup();`.  `List.insertionSort` produces the
sorted permutation, which is unique as a list over a linear order, so it
models Rust `sort` exactly; `dedupConsec` models Rust `dedup`. -/
def canonicalize (l : List Sig) : List Sig :=
  dedupConsec (List.insertionSort (· ≤ ·) l)

/-!
Embedding of `consensus/mint-client/src/config.rs`.

File loading, PEM/DER parsing and RPC submission are external collaborators:
the embedding receives already-parsed keys and signatures, the RNG draw used
by `get_or_generate_nonce` is passed explicitly as `gnonce`, the prefix hash
functions (`MintConfigTxPrefix::hash`, `MintTxPrefix::hash`) and the Ed25519
signing operation are passed as explicit function arguments, and the
`fallback_tombstone_block` closure is passed as its resulting value.
-/

/-- Embeds `SignerSet<Ed25519Public>` from `mc_crypto_multisig` as used by
`config.rs`: an ordered list of public keys plus a threshold.  Modelled from
the spec: `SignerSet::new` is infallible (it is called under `Ok(...)` in
`parse_mint_config`), stores the keys as given and performs no dedup. -/
structure SignerSet where
  signers : List Key
  threshold : Nat
deriving DecidableEq

def SignerSet.new (public_keys : List Key) (threshold : Nat) : SignerSet :=
  { signers := public_keys, threshold := threshold }

/-- Embeds `MintConfig` (token id, mint limit, signer set). -/
structure MintConfig where
  token_id : Nat
  mint_limit : Nat
  signer_set : SignerSet
deriving DecidableEq

/-- Embeds `MintConfigTxPrefix`, the unsigned mint-configuration record. -/
structure MintConfigTxPfx where
  token_id : Nat
  configs : List MintConfig
  nonce : List Nat
  tombstone_block : Nat
  total_mint_limit : Nat
deriving DecidableEq

/-- Embeds `MultiSig<Ed25519Signature>`: `MultiSig::new` wraps a signature
vector. -/
structure MultiSig where
  signatures : List Sig
deriving DecidableEq

def MultiSig.new (signatures : List Sig) : MultiSig :=
  { signatures := signatures }

/-- Embeds `MintConfigTx` (field `pfx` embeds the source field holding the
unsigned record). -/
structure MintConfigTx where
  pfx : MintConfigTxPfx
  signature : MultiSig
deriving DecidableEq

/-- Embeds `MintConfigTxPrefixParams` (field `pfx_params` naming below embeds
the flattened source field). -/
structure MintConfigTxPrefixParams where
  token_id : Nat
  tombstone : Option Nat
  nonce : Option (List Nat)
  configs : List (Nat × SignerSet)
  total_mint_limit : Nat
deriving DecidableEq

/-- Embeds `get_or_generate_nonce`: a caller-supplied nonce is passed through
verbatim, otherwise the RNG draw `gnonce` is used. -/
def get_or_generate_nonce (nonce : Option (List Nat)) (gnonce : List Nat) :
    List Nat :=
  match nonce with
  | some n => n
  | none => gnonce

/-- The record built by `try_into_mint_config_tx_prefix` (its body, which
cannot fail). -/
def mk_mint_config_tx_pfx (p : MintConfigTxPrefixParams) (fallback : Nat)
    (gnonce : List Nat) : MintConfigTxPfx :=
  { token_id := p.token_id
    configs := p.configs.map (fun c =>
      { token_id := p.token_id, mint_limit := c.1, signer_set := c.2 })
    nonce := get_or_generate_nonce p.nonce gnonce
    tombstone_block := p.tombstone.getD fallback
    total_mint_limit := p.total_mint_limit }

/-- Embeds `MintConfigTxPrefixParams::try_into_mint_config_tx_prefix`. -/
def try_into_mint_config_tx_pfx (p : MintConfigTxPrefixParams)
    (fallback : Nat) (gnonce : List Nat) : Except String MintConfigTxPfx :=
  .ok (mk_mint_config_tx_pfx p fallback gnonce)

/-- Embeds the local-signing loop
`signing_keys.into_iter().map(|signer| ...try_sign(message)...).collect::<Result<Vec<_>, _>>()`:
each local key signs the message, any failure aborts with the wrapped error. -/
def sign_local (ectx : String) (sign : Key → Msg → Except String Sig)
    (msg : Msg) : List Key → Except String (List Sig)
  | [] => .ok []
  | k :: rest =>
    match sign k msg with
    | .error e => .error (ectx ++ e)
    | .ok s =>
      match sign_local ectx sign msg rest with
      | .error e => .error e
      | .ok sigs => .ok (s :: sigs)

/-- Embeds `MintConfigTxParams`. -/
structure MintConfigTxParams where
  signing_keys : List Key
  signatures : List Sig
  pfx_params : MintConfigTxPrefixParams

/-- Embeds `MintConfigTxParams::try_into_mint_config_tx`: build the unsigned
record, hash it, sign with each local key, append the pre-supplied
signatures, sort, dedup, and wrap as a `MultiSig`. -/
def try_into_mint_config_tx (sign : Key → Msg → Except String Sig)
    (hashC : MintConfigTxPfx → Msg) (p : MintConfigTxParams)
    (fallback : Nat) (gnonce : List Nat) : Except String MintConfigTx :=
  match try_into_mint_config_tx_pfx p.pfx_params fallback gnonce with
  | .error e => .error e
  | .ok pfx =>
    match sign_local "Failed to sign MintConfigTxPrefix: " sign (hashC pfx)
        p.signing_keys with
    | .error e => .error e
    | .ok local_sigs =>
      .ok { pfx := pfx
            signature := MultiSig.new (canonicalize (local_sigs ++ p.signatures)) }

/-- Embeds `PublicAddress` as consumed by `config.rs`: view and spend public
keys plus an optional fog report URL. -/
structure PublicAddress where
  view_public_key : Nat
  spend_public_key : Nat
  fog_report_url : Option String
deriving DecidableEq

/-- Embeds `FogContext` (defined outside the given sources).  Modelled from
the spec: one fallible call taking the recipient, returning hint bytes and a
public-key expiry height used to tighten the tombstone. -/
structure FogContext where
  get_e_fog_hint : PublicAddress → Except String (List Nat × Nat)

/-- Embeds `MintTxPrefixParams` (recipient, token id, amount, optional
tombstone and nonce). -/
structure MintTxPrefixParams where
  recipient : PublicAddress
  token_id : Nat
  amount : Nat
  tombstone : Option Nat
  nonce : Option (List Nat)

/-- Embeds `MintTxPrefix`, the unsigned mint record. -/
structure MintTxPfx where
  token_id : Nat
  amount : Nat
  view_public_key : Nat
  spend_public_key : Nat
  nonce : List Nat
  tombstone_block : Nat
  e_fog_hint : Option (List Nat)
deriving DecidableEq

/-- Embeds `MintTxPrefixParams::try_into_mint_tx_prefix`: resolve the
tombstone from the caller value or the fallback; when the recipient has a fog
report URL a fog context must be present (else a fatal error naming the URL),
and its resolved expiry height lowers the tombstone via `min`. -/
def try_into_mint_tx_pfx (p : MintTxPrefixParams)
    (fog_bits : Option FogContext) (fallback : Nat) (gnonce : List Nat) :
    Except String MintTxPfx :=
  let tombstone0 := p.tombstone.getD fallback
  match p.recipient.fog_report_url with
  | none =>
    .ok { token_id := p.token_id, amount := p.amount
          view_public_key := p.recipient.view_public_key
          spend_public_key := p.recipient.spend_public_key
          nonce := get_or_generate_nonce p.nonce gnonce
          tombstone_block := tombstone0
          e_fog_hint := none }
  | some fog_url =>
    match fog_bits with
    | none =>
      .error ("This recipient has a fog url, but a CSS to validate fog public keys was not supplied: "
        ++ fog_url)
    | some fb =>
      match fb.get_e_fog_hint p.recipient with
      | .error e => .error e
      | .ok (hint, pubkey_expiry) =>
        .ok { token_id := p.token_id, amount := p.amount
              view_public_key := p.recipient.view_public_key
              spend_public_key := p.recipient.spend_public_key
              nonce := get_or_generate_nonce p.nonce gnonce
              tombstone_block := min tombstone0 pubkey_expiry
              e_fog_hint := some hint }

/-- Embeds `MintTx`. -/
structure MintTx where
  pfx : MintTxPfx
  signature : MultiSig
deriving DecidableEq

/-- Embeds `MintTxParams`. -/
structure MintTxParams where
  signing_keys : List Key
  signatures : List Sig
  pfx_params : MintTxPrefixParams

/-- Embeds `MintTxParams::try_into_mint_tx`: identical signature collection
pipeline as `try_into_mint_config_tx` over the mint prefix. -/
def try_into_mint_tx (sign : Key → Msg → Except String Sig)
    (hashT : MintTxPfx → Msg) (p : MintTxParams)
    (fog_bits : Option FogContext) (fallback : Nat) (gnonce : List Nat) :
    Except String MintTx :=
  match try_into_mint_tx_pfx p.pfx_params fog_bits fallback gnonce with
  | .error e => .error e
  | .ok pfx =>
    match sign_local "Failed to sign MintTxPrefix: " sign (hashT pfx)
        p.signing_keys with
    | .error e => .error e
    | .ok local_sigs =>
      .ok { pfx := pfx
            signature := MultiSig.new (canonicalize (local_sigs ++ p.signatures)) }

/-- Whether an `Except` result is a success. -/
def is_success {ε α : Type} (r : Except ε α) : Bool :=
  match r with
  | .ok _ => true
  | .error _ => false

/-- Embeds `parse_mint_config` at the point where the textual parts have been
split and the numeric fields and key files have parsed successfully: the
format requires at least three colon-separated parts, i.e. at least one key
file; the threshold is then checked against the number of keys; finally the
signer set is built with `SignerSet::new`. -/
def parse_mint_config (mint_limit : Nat) (threshold : Nat)
    (public_keys : List Key) : Except String (Nat × SignerSet) :=
  if public_keys.length < 1 then
    .error "mint config is not in the correct format"
  else if public_keys.length < threshold then
    .error "signing threshold is greater than the number of public keys"
  else
    .ok (mint_limit, SignerSet.new public_keys threshold)

/-!
Embedding of
`transaction/builder/src/memo_builder/defragmentation_memo_builder.rs`.

Each `&mut self` method is embedded as a function from the builder state to a
pair of the method result and the post-call state, exactly as the source
mutates (or fails to mutate) its fields.
-/

/-- Embeds `Amount` (value and token id). -/
structure Amount where
  value : Nat
  token_id : Nat
deriving DecidableEq

/-- Modelled from the spec: the network minimum fee constant for the MOB
token (`Mob::MINIMUM_FEE`), used only to populate the default state. -/
def Mob_MINIMUM_FEE : Nat := 400000000

/-- Modelled from the spec: the MOB token id (`Mob::ID`). -/
def Mob_ID : Nat := 0

/-- Embeds `NewMemoError` restricted to the variants this builder emits. -/
inductive NewMemoError where
  | FeeAfterChange
  | MultipleDefragOutputs
  | OutputsAfterChange
  | MultipleChangeOutputs
  | MixedTokenIds
deriving DecidableEq

/-- Embeds `DefragmentationMemo::new(fee, total_outlay, defrag_id)`.
Modelled from the spec: the memo payload deterministically encodes the fee,
the total outlay and the correlation id, so payload equality is byte
identity of the emitted memo. -/
structure DefragmentationMemo where
  fee : Nat
  total_outlay : Nat
  defrag_id : Nat
deriving DecidableEq

def DefragmentationMemo.new (fee : Nat) (total_outlay : Nat)
    (defrag_id : Nat) : DefragmentationMemo :=
  { fee := fee, total_outlay := total_outlay, defrag_id := defrag_id }

/-- The memo payload produced by this builder is the encoded
defragmentation memo. -/
abbrev MemoPayload := DefragmentationMemo

/-- Embeds `MemoContext` (opaque to this builder, which ignores it). -/
structure MemoContext where
deriving DecidableEq

/-- Embeds `ReservedSubaddresses` (opaque to this builder, which ignores
it). -/
structure ReservedSubaddresses where
deriving DecidableEq

/-- Embeds `DefragmentationMemoBuilder`. -/
structure DefragmentationMemoBuilder where
  fee : Amount
  total_outlay : Nat
  defrag_id : Option Nat
  wrote_main_memo : Bool
  wrote_decoy_memo : Bool
deriving DecidableEq

/-- Embeds `impl Default for DefragmentationMemoBuilder`. -/
def DefragmentationMemoBuilder.default : DefragmentationMemoBuilder :=
  { fee := { value := Mob_MINIMUM_FEE, token_id := Mob_ID }
    total_outlay := Mob_MINIMUM_FEE
    defrag_id := none
    wrote_main_memo := false
    wrote_decoy_memo := false }

/-- Embeds `set_total_outlay` (written against `&self` in the source; the
evident intended field write is modelled). -/
def DefragmentationMemoBuilder.set_total_outlay
    (s : DefragmentationMemoBuilder) (value : Nat) :
    DefragmentationMemoBuilder :=
  { s with total_outlay := value }

/-- Embeds `set_defrag_id`. -/
def DefragmentationMemoBuilder.set_defrag_id
    (s : DefragmentationMemoBuilder) (value : Nat) :
    DefragmentationMemoBuilder :=
  { s with defrag_id := some value }

/-- Embeds `clear_defrag_id`. -/
def DefragmentationMemoBuilder.clear_defrag_id
    (s : DefragmentationMemoBuilder) : DefragmentationMemoBuilder :=
  { s with defrag_id := none }

/-- Embeds `MemoBuilder::set_fee`: fails with `FeeAfterChange` when the main
memo was recorded as written, else stores the fee. -/
def DefragmentationMemoBuilder.set_fee (s : DefragmentationMemoBuilder)
    (fee : Amount) : Except NewMemoError Unit × DefragmentationMemoBuilder :=
  if s.wrote_main_memo then
    (.error .FeeAfterChange, s)
  else
    (.ok (), { s with fee := fee })

/-- Embeds `MemoBuilder::make_memo_for_output`.  Note: exactly as in the
source, the returned state is unchanged — no assignment to
`wrote_main_memo` appears in the method body. -/
def DefragmentationMemoBuilder.make_memo_for_output
    (s : DefragmentationMemoBuilder) (_amount : Amount)
    (_recipient : PublicAddress) (_memo_context : MemoContext) :
    Except NewMemoError MemoPayload × DefragmentationMemoBuilder :=
  if s.wrote_main_memo then
    (.error .MultipleDefragOutputs, s)
  else if s.wrote_decoy_memo then
    (.error .OutputsAfterChange, s)
  else
    (.ok (DefragmentationMemo.new s.fee.value s.total_outlay
      (s.defrag_id.getD 0)), s)

/-- Embeds `MemoBuilder::make_memo_for_change_output`.  Note: exactly as in
the source, the returned state is unchanged — no assignment to
`wrote_decoy_memo` appears in the method body — and no check of
`wrote_main_memo` is performed. -/
def DefragmentationMemoBuilder.make_memo_for_change_output
    (s : DefragmentationMemoBuilder) (amount : Amount)
    (_change_destination : ReservedSubaddresses)
    (_memo_context : MemoContext) :
    Except NewMemoError MemoPayload × DefragmentationMemoBuilder :=
  if s.wrote_decoy_memo then
    (.error .MultipleChangeOutputs, s)
  else if amount.token_id = s.fee.token_id then
    (.error .MixedTokenIds, s)
  else
    (.ok (DefragmentationMemo.new 0 0 (s.defrag_id.getD 0)), s)

/-- The operations a transaction builder can drive a
`DefragmentationMemoBuilder` with. -/
inductive BuilderOp where
  | opSetFee (fee : Amount)
  | opSetTotalOutlay (value : Nat)
  | opSetDefragId (value : Nat)
  | opClearDefragId
  | opMakeOutput (amount : Amount) (recipient : PublicAddress)
      (ctx : MemoContext)
  | opMakeChange (amount : Amount) (dest : ReservedSubaddresses)
      (ctx : MemoContext)

/-- The state after one builder call (errors leave the state unchanged, as
each method returns before mutating on its error paths). -/
def applyOp (s : DefragmentationMemoBuilder) : BuilderOp →
    DefragmentationMemoBuilder
  | .opSetFee fee => (s.set_fee fee).2
  | .opSetTotalOutlay v => s.set_total_outlay v
  | .opSetDefragId v => s.set_defrag_id v
  | .opClearDefragId => s.clear_defrag_id
  | .opMakeOutput a r c => (s.make_memo_for_output a r c).2
  | .opMakeChange a d c => (s.make_memo_for_change_output a d c).2

/-- The builder state reached from the default state by a call sequence. -/
def runOps (ops : List BuilderOp) : DefragmentationMemoBuilder :=
  ops.foldl applyOp DefragmentationMemoBuilder.default

/-!
Concrete sample values used to evaluate the theorems below on closed inputs.
-/

/-- A sample deterministic signing function: key `k` signs any message as the
one-byte signature `[k]`. -/
def sampleSign : Key → Msg → Except String Sig := fun k _ => .ok [k]

/-- A sample signing function for which key 1 fails to sign. -/
def sampleSignFail : Key → Msg → Except String Sig := fun k _ =>
  if k = 1 then .error "signing device unavailable" else .ok [k]

/-- A sample hash function over mint-configuration records. -/
def sampleHashC : MintConfigTxPfx → Msg := fun _ => [0]

/-- A sample hash function over mint records. -/
def sampleHashT : MintTxPfx → Msg := fun _ => [0]

/-- Sample mint-configuration parameters (token 0, tombstone 5, nonce [3]). -/
def sampleCfgPfxParams : MintConfigTxPrefixParams :=
  { token_id := 0, tombstone := some 5, nonce := some [3], configs := []
    total_mint_limit := 10 }

/-- Sample signer entry: keys 2 and 1 sign locally, signature [9] supplied. -/
def sampleCfgParams1 : MintConfigTxParams :=
  { signing_keys := [2, 1], signatures := [[9]]
    pfx_params := sampleCfgPfxParams }

/-- The same logical signer entry with key 1 local and signatures [9], [2]
supplied externally instead. -/
def sampleCfgParams2 : MintConfigTxParams :=
  { signing_keys := [1], signatures := [[9], [2]]
    pfx_params := sampleCfgPfxParams }

/-- A sample recipient with no fog report URL. -/
def sampleRecipient : PublicAddress :=
  { view_public_key := 1, spend_public_key := 2, fog_report_url := none }

/-- Sample mint parameters targeting `sampleRecipient`. -/
def sampleMintPfxParams : MintTxPrefixParams :=
  { recipient := sampleRecipient, token_id := 0, amount := 50
    tombstone := some 10, nonce := some [4] }

def sampleMintParams1 : MintTxParams :=
  { signing_keys := [2, 1], signatures := [[9]]
    pfx_params := sampleMintPfxParams }

def sampleMintParams2 : MintTxParams :=
  { signing_keys := [1], signatures := [[9], [2]]
    pfx_params := sampleMintPfxParams }

/-- The unsigned record built from `sampleMintPfxParams`. -/
def sampleMintTxPfx : MintTxPfx :=
  { token_id := 0, amount := 50, view_public_key := 1, spend_public_key := 2
    nonce := [4], tombstone_block := 10, e_fog_hint := none }

/-- A sample recipient that does publish a fog report URL. -/
def sampleFogRecipient : PublicAddress :=
  { view_public_key := 1, spend_public_key := 2
    fog_report_url := some "fog://example" }

/-- Sample mint parameters targeting `sampleFogRecipient`. -/
def sampleFogMintPfxParams : MintTxPrefixParams :=
  { recipient := sampleFogRecipient, token_id := 0, amount := 50
    tombstone := some 10, nonce := some [4] }

/-- A sample fog context resolving hint bytes [3] and expiry height 4. -/
def sampleFogContext : FogContext :=
  { get_e_fog_hint := fun _ => .ok ([3], 4) }

theorem mem_dedupConsec {α : Type} [DecidableEq α] (a : α) :
    ∀ (l : List α), a ∈ dedupConsec l ↔ a ∈ l
  | [] => by simp [dedupConsec]
  | [b] => by simp [dedupConsec]
  | b :: c :: rest => by
    by_cases h : b = c
    · subst h
      simp [dedupConsec, mem_dedupConsec a (b :: rest)]
    · simp [dedupConsec, h, mem_dedupConsec a (c :: rest)]

theorem dedupConsec_pairwise_lt {α : Type} [DecidableEq α] [LinearOrder α] :
    ∀ (l : List α), l.Sorted (· ≤ ·) → (dedupConsec l).Pairwise (· < ·)
  | [] => by simp [dedupConsec]
  | [a] => by simp [dedupConsec]
  | a :: b :: rest => by
    intro hs
    have hab : a ≤ b := List.rel_of_sorted_cons hs b (by simp)
    have hs' : (b :: rest).Sorted (· ≤ ·) := hs.of_cons
    by_cases h : a = b
    · simpa [dedupConsec, h] using dedupConsec_pairwise_lt (b :: rest) hs'
    · have hlt : a < b := lt_of_le_of_ne hab h
      simp only [dedupConsec, h, if_false]
      refine List.Pairwise.cons ?_ (dedupConsec_pairwise_lt (b :: rest) hs')
      intro x hx
      have hxmem : x ∈ b :: rest := (mem_dedupConsec x (b :: rest)).1 hx
      rcases List.mem_cons.1 hxmem with hxb | hxr
      · exact hxb ▸ hlt
      · exact lt_of_lt_of_le hlt (List.rel_of_sorted_cons hs' x hxr)

theorem dedupConsec_sorted {α : Type} [DecidableEq α] [LinearOrder α] (l : List α)
    (hs : l.Sorted (· ≤ ·)) : (dedupConsec l).Sorted (· ≤ ·) :=
  (dedupConsec_pairwise_lt l hs).imp le_of_lt

theorem dedupConsec_nodup {α : Type} [DecidableEq α] [LinearOrder α] (l : List α)
    (hs : l.Sorted (· ≤ ·)) : (dedupConsec l).Nodup :=
  (dedupConsec_pairwise_lt l hs).imp ne_of_lt

/-- Two strictly sorted lists holding the same elements are equal. -/
theorem sorted_nodup_toFinset_eq {α : Type} [DecidableEq α] [LinearOrder α] {l₁ l₂ : List α}
    (hs₁ : l₁.Sorted (· ≤ ·)) (hs₂ : l₂.Sorted (· ≤ ·))
    (hn₁ : l₁.Nodup) (hn₂ : l₂.Nodup) (h : l₁.toFinset = l₂.toFinset) :
    l₁ = l₂ :=
  List.eq_of_perm_of_sorted
    (List.perm_of_nodup_nodup_toFinset_eq hn₁ hn₂ h) hs₁ hs₂

theorem canonicalize_sorted (l : List Sig) :
    (canonicalize l).Sorted (· ≤ ·) := by
  unfold canonicalize
  exact dedupConsec_sorted _ (List.sorted_insertionSort _ l)

theorem canonicalize_nodup (l : List Sig) : (canonicalize l).Nodup := by
  unfold canonicalize
  exact dedupConsec_nodup _ (List.sorted_insertionSort _ l)

theorem toFinset_canonicalize (l : List Sig) :
    (canonicalize l).toFinset = l.toFinset := by
  ext a
  simp [canonicalize, mem_dedupConsec, List.mem_insertionSort]

/-- Canonicalization depends only on the set of supplied signatures. -/
theorem canonicalize_eq_of_toFinset_eq {l₁ l₂ : List Sig}
    (h : l₁.toFinset = l₂.toFinset) : canonicalize l₁ = canonicalize l₂ :=
  sorted_nodup_toFinset_eq (canonicalize_sorted l₁) (canonicalize_sorted l₂)
    (canonicalize_nodup l₁) (canonicalize_nodup l₂)
    (by rw [toFinset_canonicalize l₁, toFinset_canonicalize l₂]; exact h)

theorem applyOp_wrote_flags (s : DefragmentationMemoBuilder)
    (op : BuilderOp) :
    (applyOp s op).wrote_main_memo = s.wrote_main_memo ∧
      (applyOp s op).wrote_decoy_memo = s.wrote_decoy_memo := by
  cases op <;>
    simp only [applyOp, DefragmentationMemoBuilder.set_fee,
      DefragmentationMemoBuilder.set_total_outlay,
      DefragmentationMemoBuilder.set_defrag_id,
      DefragmentationMemoBuilder.clear_defrag_id,
      DefragmentationMemoBuilder.make_memo_for_output,
      DefragmentationMemoBuilder.make_memo_for_change_output] <;>
    first
      | (split_ifs <;> simp)
      | simp

/-- No call sequence ever sets either written-memo flag: the source never
assigns them. -/
theorem runOps_wrote_flags (ops : List BuilderOp) :
    (runOps ops).wrote_main_memo = false ∧
      (runOps ops).wrote_decoy_memo = false := by
  suffices h : ∀ (s : DefragmentationMemoBuilder),
      s.wrote_main_memo = false → s.wrote_decoy_memo = false →
      (ops.foldl applyOp s).wrote_main_memo = false ∧
        (ops.foldl applyOp s).wrote_decoy_memo = false by
    exact h DefragmentationMemoBuilder.default rfl rfl
  induction ops with
  | nil => intro s h1 h2; exact ⟨h1, h2⟩
  | cons op rest ih =>
    intro s h1 h2
    have := applyOp_wrote_flags s op
    exact ih (applyOp s op) (this.1.trans h1) (this.2.trans h2)

/-- Claim C2 — divergence witness.  The claim states that after one
successful `make_memo_for_output` every subsequent call returns an error,
a successful call having recorded that the main memo was written.  In the
code no assignment to `wrote_main_memo` exists, so on the default state the
first call succeeds, leaves the state unchanged, and a second call succeeds
again with the same payload. -/
theorem c2_second_main_memo_call_succeeds :
    (DefragmentationMemoBuilder.default.make_memo_for_output
        { value := 100, token_id := 0 }
        { view_public_key := 0, spend_public_key := 0, fog_report_url := none }
        {}).1
      = .ok (DefragmentationMemo.new 400000000 400000000 0) ∧
    ((DefragmentationMemoBuilder.default.make_memo_for_output
        { value := 100, token_id := 0 }
        { view_public_key := 0, spend_public_key := 0, fog_report_url := none }
        {}).2.make_memo_for_output
        { value := 100, token_id := 0 }
        { view_public_key := 0, spend_public_key := 0, fog_report_url := none }
        {}).1
      = .ok (DefragmentationMemo.new 400000000 400000000 0) := by
  exact ⟨rfl, rfl⟩

/-- Claim C3 — divergence witness.  The claim states that on a fresh builder
`make_memo_for_change_output` fails because the main output must be written
first.  The code checks only `wrote_decoy_memo` and the token ids, so on the
default state a change output with a non-fee token id succeeds. -/
theorem c3_change_before_main_succeeds :
    (DefragmentationMemoBuilder.default.make_memo_for_change_output
        { value := 0, token_id := 1 } {} {}).1
      = .ok (DefragmentationMemo.new 0 0 0) := by
  exact rfl

/-- Claim C4 — divergence witness.  The claim states that `set_fee` after a
successful `make_memo_for_output` returns the fee-after-change error.  Since
`make_memo_for_output` never records its success, `set_fee` still succeeds
afterwards (the claim's other half — `set_fee` succeeding and storing the
fee before the main memo is written — does hold, see the C9 theorem). -/
theorem c4_set_fee_after_main_memo_succeeds :
    (DefragmentationMemoBuilder.default.make_memo_for_output
        { value := 100, token_id := 0 }
        { view_public_key := 0, spend_public_key := 0, fog_report_url := none }
        {}).1
      = .ok (DefragmentationMemo.new 400000000 400000000 0) ∧
    ((DefragmentationMemoBuilder.default.make_memo_for_output
        { value := 100, token_id := 0 }
        { view_public_key := 0, spend_public_key := 0, fog_report_url := none }
        {}).2.set_fee { value := 7, token_id := 0 }).1
      = .ok () := by
  exact ⟨rfl, rfl⟩

/-- Claim C8: on every reachable builder state, `make_memo_for_change_output`
returns the mixed-token-ids error exactly when the change amount's token id
equals the configured fee's token id, and otherwise succeeds with a payload
holding fee 0, outlay 0 and the stored correlation id (defaulting to zero),
independent of the change amount's value. -/
theorem c8_change_output_mixed_token_policy (ops : List BuilderOp)
    (amount : Amount) (dest : ReservedSubaddresses) (ctx : MemoContext) :
    (runOps ops).make_memo_for_change_output amount dest ctx
      = if amount.token_id = (runOps ops).fee.token_id then
          (.error .MixedTokenIds, runOps ops)
        else
          (.ok (DefragmentationMemo.new 0 0 ((runOps ops).defrag_id.getD 0)),
            runOps ops) := by
  have h := (runOps_wrote_flags ops).2
  simp [DefragmentationMemoBuilder.make_memo_for_change_output, h]

/-- Claim C9: whenever `set_fee` succeeds (the main memo not yet recorded as
written), only the stored fee changes; the total outlay, correlation id and
both written-memo flags are unchanged — in particular the stored total
outlay is not recomputed from the new fee. -/
theorem c9_set_fee_frame (s : DefragmentationMemoBuilder) (f : Amount)
    (h : s.wrote_main_memo = false) :
    s.set_fee f = (.ok (), { s with fee := f }) ∧
    (s.set_fee f).2.fee = f ∧
    (s.set_fee f).2.total_outlay = s.total_outlay ∧
    (s.set_fee f).2.defrag_id = s.defrag_id ∧
    (s.set_fee f).2.wrote_main_memo = s.wrote_main_memo ∧
    (s.set_fee f).2.wrote_decoy_memo = s.wrote_decoy_memo := by
  simp [DefragmentationMemoBuilder.set_fee, h]

/-- Witness for the C9 theorem at the default state with a fee of value 5
and token id 2. -/
theorem c9_set_fee_frame_witness :
    DefragmentationMemoBuilder.default.set_fee { value := 5, token_id := 2 }
      = (.ok (), { DefragmentationMemoBuilder.default with
          fee := { value := 5, token_id := 2 } }) ∧
    (DefragmentationMemoBuilder.default.set_fee
        { value := 5, token_id := 2 }).2.fee = { value := 5, token_id := 2 } ∧
    (DefragmentationMemoBuilder.default.set_fee
        { value := 5, token_id := 2 }).2.total_outlay
      = DefragmentationMemoBuilder.default.total_outlay ∧
    (DefragmentationMemoBuilder.default.set_fee
        { value := 5, token_id := 2 }).2.defrag_id
      = DefragmentationMemoBuilder.default.defrag_id ∧
    (DefragmentationMemoBuilder.default.set_fee
        { value := 5, token_id := 2 }).2.wrote_main_memo
      = DefragmentationMemoBuilder.default.wrote_main_memo ∧
    (DefragmentationMemoBuilder.default.set_fee
        { value := 5, token_id := 2 }).2.wrote_decoy_memo
      = DefragmentationMemoBuilder.default.wrote_decoy_memo :=
  c9_set_fee_frame DefragmentationMemoBuilder.default
    { value := 5, token_id := 2 } rfl

/-- Claim C10: a builder whose correlation id is unset and the same builder
with the correlation id explicitly set to zero produce identical memo
payload results from both `make_memo_for_output` and
`make_memo_for_change_output` (the payload encodes
`defrag_id.unwrap_or(0)` in both methods). -/
theorem c10_defrag_id_none_eq_some_zero (s : DefragmentationMemoBuilder)
    (amount : Amount) (r : PublicAddress) (c : MemoContext)
    (amount2 : Amount) (d : ReservedSubaddresses) (c2 : MemoContext) :
    (DefragmentationMemoBuilder.make_memo_for_output
        { s with defrag_id := none } amount r c).1
      = (DefragmentationMemoBuilder.make_memo_for_output
        { s with defrag_id := some 0 } amount r c).1 ∧
    (DefragmentationMemoBuilder.make_memo_for_change_output
        { s with defrag_id := none } amount2 d c2).1
      = (DefragmentationMemoBuilder.make_memo_for_change_output
        { s with defrag_id := some 0 } amount2 d c2).1 := by
  constructor <;>
    simp only [DefragmentationMemoBuilder.make_memo_for_output,
      DefragmentationMemoBuilder.make_memo_for_change_output] <;>
    split_ifs <;> simp

/-- Claim C5 — counterexample.  The claim states that mint-config parsing
succeeds iff `0 < t` and `t` is at most the number of keys, but the code
only checks `threshold > public_keys.len()` (plus the at-least-one-keyfile
format requirement): a threshold of zero with one key parses successfully
even though `0 < 0` is false. -/
theorem c5_zero_threshold_accepted :
    is_success (parse_mint_config 10 0 [0]) = true ∧ ¬ (0 < 0) := by
  exact ⟨rfl, by decide⟩

/-- Claim C5 — amended.  Construction via the textual mint-config form (once
the key files parse) succeeds iff at least one key file was supplied and the
threshold is at most the number of keys; a threshold of zero is accepted. -/
theorem c5_parse_mint_config_success_iff (mint_limit threshold : Nat)
    (keys : List Key) :
    is_success (parse_mint_config mint_limit threshold keys) = true ↔
      (1 ≤ keys.length ∧ threshold ≤ keys.length) := by
  unfold parse_mint_config
  split_ifs with h1 h2 <;> simp [is_success] <;> omega

/-- Claim C6: whenever the recipient publishes a fog report URL, a fog
context is supplied, and it resolves a public-key expiry height, the prefix
tombstone is the expiry height when that is smaller than the caller-supplied
(or fallback) tombstone, and the caller/fallback value otherwise. -/
theorem c6_tombstone_minimization (p : MintTxPrefixParams)
    (ctx : FogContext) (fallback : Nat) (gnonce : List Nat) (url : String)
    (hint : List Nat) (pubkey_expiry : Nat)
    (hurl : p.recipient.fog_report_url = some url)
    (hres : ctx.get_e_fog_hint p.recipient = .ok (hint, pubkey_expiry)) :
    ∃ pfx, try_into_mint_tx_pfx p (some ctx) fallback gnonce = .ok pfx ∧
      pfx.tombstone_block =
        (if pubkey_expiry < p.tombstone.getD fallback then pubkey_expiry
         else p.tombstone.getD fallback) := by
  unfold try_into_mint_tx_pfx
  rw [hurl]
  simp only [hres]
  refine ⟨_, rfl, ?_⟩
  simp only []
  split_ifs <;> omega

/-- Witness for the C6 theorem: expiry height 4 is below the caller-supplied
tombstone 10, so the prefix is built with tombstone 4. -/
theorem c6_tombstone_minimization_witness :
    ∃ pfx, try_into_mint_tx_pfx sampleFogMintPfxParams (some sampleFogContext)
        99 [] = .ok pfx ∧
      pfx.tombstone_block =
        (if 4 < sampleFogMintPfxParams.tombstone.getD 99 then 4
         else sampleFogMintPfxParams.tombstone.getD 99) :=
  c6_tombstone_minimization sampleFogMintPfxParams sampleFogContext 99 []
    "fog://example" [3] 4 rfl rfl

/-- If any listed key fails to sign the message, the whole local-signing
loop returns an error. -/
theorem sign_local_error_of_mem (ectx : String)
    (sign : Key → Msg → Except String Sig) (msg : Msg) (k : Key) :
    ∀ (keys : List Key), k ∈ keys → is_success (sign k msg) = false →
      ∃ e, sign_local ectx sign msg keys = .error e
  | [], hk, _ => absurd hk (List.not_mem_nil k)
  | a :: rest, hk, hf => by
    rcases List.mem_cons.1 hk with hka | hkr
    · subst hka
      cases hs : sign k msg with
      | error e => exact ⟨ectx ++ e, by simp [sign_local, hs]⟩
      | ok s => rw [hs] at hf; simp [is_success] at hf
    · obtain ⟨e, he⟩ :=
        sign_local_error_of_mem ectx sign msg k rest hkr hf
      cases hs : sign a msg with
      | error e' => exact ⟨ectx ++ e', by simp [sign_local, hs]⟩
      | ok s => exact ⟨e, by simp [sign_local, hs, he]⟩

/-- Claim C7: if signing fails for any one local key, both
`try_into_mint_config_tx` and `try_into_mint_tx` return an error and no
signed record is produced. -/
theorem c7_signing_failure_aborts
    (sign : Key → Msg → Except String Sig)
    (hashC : MintConfigTxPfx → Msg) (hashT : MintTxPfx → Msg)
    (fog : Option FogContext) (fallback : Nat) (gnonce : List Nat)
    (p : MintConfigTxParams) (q : MintTxParams) (k k' : Key)
    (tpfx : MintTxPfx) :
    (k ∈ p.signing_keys →
      is_success (sign k
          (hashC (mk_mint_config_tx_pfx p.pfx_params fallback gnonce)))
        = false →
      ∃ e, try_into_mint_config_tx sign hashC p fallback gnonce
        = .error e) ∧
    (k' ∈ q.signing_keys →
      try_into_mint_tx_pfx q.pfx_params fog fallback gnonce = .ok tpfx →
      is_success (sign k' (hashT tpfx)) = false →
      ∃ e, try_into_mint_tx sign hashT q fog fallback gnonce = .error e) := by
  constructor
  · intro hk hf
    obtain ⟨e, he⟩ := sign_local_error_of_mem
      "Failed to sign MintConfigTxPrefix: " sign
      (hashC (mk_mint_config_tx_pfx p.pfx_params fallback gnonce)) k
      p.signing_keys hk hf
    exact ⟨e, by simp [try_into_mint_config_tx, try_into_mint_config_tx_pfx, he]⟩
  · intro hk hpfx hf
    obtain ⟨e, he⟩ := sign_local_error_of_mem
      "Failed to sign MintTxPrefix: " sign (hashT tpfx) k'
      q.signing_keys hk hf
    exact ⟨e, by simp [try_into_mint_tx, hpfx, he]⟩

/-- Witness for the C7 theorem: with `sampleSignFail`, key 1 (a member of
both sample signing-key lists) fails to sign, and both constructions return
an error. -/
theorem c7_signing_failure_aborts_witness :
    ((1 : Key) ∈ sampleCfgParams1.signing_keys ∧
      is_success (sampleSignFail 1
          (sampleHashC (mk_mint_config_tx_pfx sampleCfgParams1.pfx_params 7 [1])))
        = false ∧
      (∃ e, try_into_mint_config_tx sampleSignFail sampleHashC
        sampleCfgParams1 7 [1] = .error e)) ∧
    ((1 : Key) ∈ sampleMintParams1.signing_keys ∧
      try_into_mint_tx_pfx sampleMintParams1.pfx_params none 7 [1]
        = .ok sampleMintTxPfx ∧
      is_success (sampleSignFail 1 (sampleHashT sampleMintTxPfx)) = false ∧
      (∃ e, try_into_mint_tx sampleSignFail sampleHashT sampleMintParams1
        none 7 [1] = .error e)) := by
  have h := c7_signing_failure_aborts sampleSignFail sampleHashC sampleHashT
    none 7 [1] sampleCfgParams1 sampleMintParams1 1 1 sampleMintTxPfx
  refine ⟨⟨by decide, rfl, h.1 (by decide) rfl⟩,
    ⟨by decide, rfl, rfl, h.2 (by decide) rfl rfl⟩⟩

/-- Claim C1: for a fixed message (prefix hash) and a fixed set formed from
the union of locally produced signatures and externally supplied ones,
`try_into_mint_config_tx` and `try_into_mint_tx` produce a signature
collection that is sorted by byte order, deduplicated, and identical for any
permutation of the signing-key and signature lists and for any split of the
set between local keys and external signatures. -/
theorem c1_signature_collection_canonical
    (sign : Key → Msg → Except String Sig)
    (hashC : MintConfigTxPfx → Msg) (hashT : MintTxPfx → Msg)
    (fog : Option FogContext) (fallback : Nat) (gnonce : List Nat)
    (p1 p2 : MintConfigTxParams) (q1 q2 : MintTxParams)
    (l1 l2 m1 m2 : List Sig) (tpfx : MintTxPfx) :
    (p1.pfx_params = p2.pfx_params →
      sign_local "Failed to sign MintConfigTxPrefix: " sign
          (hashC (mk_mint_config_tx_pfx p1.pfx_params fallback gnonce))
          p1.signing_keys = .ok l1 →
      sign_local "Failed to sign MintConfigTxPrefix: " sign
          (hashC (mk_mint_config_tx_pfx p2.pfx_params fallback gnonce))
          p2.signing_keys = .ok l2 →
      (l1 ++ p1.signatures).toFinset = (l2 ++ p2.signatures).toFinset →
      (try_into_mint_config_tx sign hashC p1 fallback gnonce
          = try_into_mint_config_tx sign hashC p2 fallback gnonce ∧
        ∃ tx, try_into_mint_config_tx sign hashC p1 fallback gnonce
            = .ok tx ∧
          tx.signature.signatures.Sorted (· ≤ ·) ∧
          tx.signature.signatures.Nodup)) ∧
    (q1.pfx_params = q2.pfx_params →
      try_into_mint_tx_pfx q1.pfx_params fog fallback gnonce = .ok tpfx →
      sign_local "Failed to sign MintTxPrefix: " sign (hashT tpfx)
          q1.signing_keys = .ok m1 →
      sign_local "Failed to sign MintTxPrefix: " sign (hashT tpfx)
          q2.signing_keys = .ok m2 →
      (m1 ++ q1.signatures).toFinset = (m2 ++ q2.signatures).toFinset →
      (try_into_mint_tx sign hashT q1 fog fallback gnonce
          = try_into_mint_tx sign hashT q2 fog fallback gnonce ∧
        ∃ tx, try_into_mint_tx sign hashT q1 fog fallback gnonce = .ok tx ∧
          tx.signature.signatures.Sorted (· ≤ ·) ∧
          tx.signature.signatures.Nodup)) := by
  constructor
  · intro hpp h1 h2 hset
    have hcan := canonicalize_eq_of_toFinset_eq hset
    constructor
    · simp only [try_into_mint_config_tx, try_into_mint_config_tx_pfx, h1, h2]
      rw [hpp, hcan]
    · simp only [try_into_mint_config_tx, try_into_mint_config_tx_pfx, h1]
      exact ⟨_, rfl, canonicalize_sorted _, canonicalize_nodup _⟩
  · intro hpp hpfx h1 h2 hset
    have hcan := canonicalize_eq_of_toFinset_eq hset
    have hpfx2 : try_into_mint_tx_pfx q2.pfx_params fog fallback gnonce
        = .ok tpfx := by rw [← hpp]; exact hpfx
    constructor
    · simp only [try_into_mint_tx, hpfx, hpfx2, h1, h2, hcan]
    · simp only [try_into_mint_tx, hpfx, h1]
      exact ⟨_, rfl, canonicalize_sorted _, canonicalize_nodup _⟩

/-- Witness for the C1 theorem, with `sampleSign` and the two sample
parameter splits of the signature set: keys 2, 1 local with external
signature [9] against key 1 local with external signatures [9], [2]. -/
theorem c1_signature_collection_canonical_witness :
    (try_into_mint_config_tx sampleSign sampleHashC sampleCfgParams1 7 [1]
        = try_into_mint_config_tx sampleSign sampleHashC sampleCfgParams2
          7 [1] ∧
      ∃ tx, try_into_mint_config_tx sampleSign sampleHashC sampleCfgParams1
          7 [1] = .ok tx ∧
        tx.signature.signatures.Sorted (· ≤ ·) ∧
        tx.signature.signatures.Nodup) ∧
    (try_into_mint_tx sampleSign sampleHashT sampleMintParams1 none 7 [1]
        = try_into_mint_tx sampleSign sampleHashT sampleMintParams2
          none 7 [1] ∧
      ∃ tx, try_into_mint_tx sampleSign sampleHashT sampleMintParams1
          none 7 [1] = .ok tx ∧
        tx.signature.signatures.Sorted (· ≤ ·) ∧
        tx.signature.signatures.Nodup) := by
  have h := c1_signature_collection_canonical sampleSign sampleHashC
    sampleHashT none 7 [1] sampleCfgParams1 sampleCfgParams2
    sampleMintParams1 sampleMintParams2 [[2], [1]] [[1]] [[2], [1]] [[1]]
    sampleMintTxPfx
  exact ⟨h.1 rfl rfl rfl (by decide), h.2 rfl rfl rfl rfl (by decide)⟩
